import Mathlib

/-!
Verification development for the Life-RPG progression and behavior-mechanics
engine (src/assets/js). Dates are embedded as integer day numbers: the JS
code parses every YYYY-MM-DD key at local noon (parseIsoDay) and rounds
millisecond differences to whole days, so the difference of two parsed dates
is exactly the difference of their day numbers, and startOfIsoDay(reference)
minus parseIsoDay(latest) rounds to referenceDay - latestDay (Math.round
rounds the exact half toward positive infinity). JS numbers appearing in the
formulas are embedded as rationals; the single use of Math.sqrt is embedded
through Real.sqrt. Nullable JS fields are Option values.
-/

/-- Math.round for a rational input: JS rounds half toward positive infinity. -/
def jsRound (q : ℚ) : ℤ := ⌊q + 1 / 2⌋

/-- JS Date.prototype.getDay for an integer day number; day 0 (1970-01-01) was a Thursday. -/
def jsGetDay (d : ℤ) : ℤ := (d + 4) % 7

/-- Generic clamp from constants.js: Math.max(min, Math.min(max, value)). -/
def clamp {α : Type} [LinearOrder α] (value lo hi : α) : α := max lo (min hi value)

/-- DailyEntry record from the data model: date plus independently nullable
numeric fields (storage.js / main.js entry shape). -/
structure DailyEntry where
  date : ℤ
  calories : Option ℚ
  sleepHours : Option ℚ
  mood : Option ℚ
  steps : Option ℚ
  exerciseMinutes : Option ℚ
  exerciseEffort : Option ℚ
deriving Repr, DecidableEq

/-- Profile record: the five base fields are nullable (constants.js). A string
field that is present models a JS string-typed property. -/
structure Profile where
  age : Option ℚ
  heightCm : Option ℚ
  weightKg : Option ℚ
  gender : Option String
  activityLevel : Option String
deriving Repr, DecidableEq

/-- BEHAVIOR_CONFIG.REST_DAY_MIN_STREAK from constants.js. -/
def REST_DAY_MIN_STREAK : ℕ := 3

/-- BEHAVIOR_CONFIG.REST_DAY_WINDOW_DAYS from constants.js. -/
def REST_DAY_WINDOW_DAYS : ℕ := 7

/-- BEHAVIOR_CONFIG.REST_DAY_MAX_USES_PER_WINDOW from constants.js. -/
def REST_DAY_MAX_USES_PER_WINDOW : ℕ := 1

/-- BEHAVIOR_CONFIG.SOFT_PENALTY_PER_MISSED_DAY from constants.js. -/
def SOFT_PENALTY_PER_MISSED_DAY : ℚ := 0.02

/-- BEHAVIOR_CONFIG.SOFT_PENALTY_MAX_RATE from constants.js. -/
def SOFT_PENALTY_MAX_RATE : ℚ := 0.25

/-- BEHAVIOR_CONFIG.TOTAL_PENALTY_MAX_RATE from constants.js. -/
def TOTAL_PENALTY_MAX_RATE : ℚ := 0.3

/-- BEHAVIOR_CONFIG.CALORIE_LOOKBACK_DAYS from constants.js. -/
def CALORIE_LOOKBACK_DAYS : ℕ := 7

/-- BEHAVIOR_CONFIG.CALORIE_PENALTY_PER_DEVIATION_DAY from constants.js. -/
def CALORIE_PENALTY_PER_DEVIATION_DAY : ℚ := 0.015

/-- BEHAVIOR_CONFIG.CALORIE_PENALTY_MAX_RATE from constants.js. -/
def CALORIE_PENALTY_MAX_RATE : ℚ := 0.12

/-- BEHAVIOR_CONFIG.RECOVERY_TRIGGER_STREAK from constants.js. -/
def RECOVERY_TRIGGER_STREAK : ℕ := 3

/-- BEHAVIOR_CONFIG.RECOVERY_STEP_RATE from constants.js. -/
def RECOVERY_STEP_RATE : ℚ := 0.01

/-- BEHAVIOR_CONFIG.RECOVERY_MAX_RATE from constants.js. -/
def RECOVERY_MAX_RATE : ℚ := 0.08

/-- BEHAVIOR_CONFIG.CALORIE_RECOVERY_TRIGGER_STREAK from constants.js. -/
def CALORIE_RECOVERY_TRIGGER_STREAK : ℕ := 3

/-- BEHAVIOR_CONFIG.CALORIE_RECOVERY_STEP_RATE from constants.js. -/
def CALORIE_RECOVERY_STEP_RATE : ℚ := 0.005

/-- BEHAVIOR_CONFIG.CALORIE_RECOVERY_MAX_RATE from constants.js. -/
def CALORIE_RECOVERY_MAX_RATE : ℚ := 0.03

/-- ACTIVITY_MULTIPLIERS lookup from constants.js; an unknown activity level
behaves like the JS undefined lookup (none). -/
def activityMultiplier (level : String) : Option ℚ :=
  if level = "sedentary" then some 1.2
  else if level = "light" then some 1.375
  else if level = "moderate" then some 1.55
  else if level = "active" then some 1.725
  else if level = "very_active" then some 1.9
  else none

/-- CALORIE_STRATEGY_BANDS lookup from constants.js, as (minRatio, maxRatio). -/
def calorieStrategyBand (strategy : String) : Option (ℚ × ℚ) :=
  if strategy = "maintain" then some (0.9, 1.1)
  else if strategy = "cut" then some (0.8, 0.95)
  else if strategy = "gain" then some (1.05, 1.2)
  else none

/-- isProfileComplete from profile-metrics.js: the five base fields are present. -/
def isProfileComplete (profile : Profile) : Bool :=
  profile.age.isSome && profile.heightCm.isSome && profile.weightKg.isSome
    && profile.gender.isSome && profile.activityLevel.isSome

/-- computeBmr from profile-metrics.js (Mifflin-St Jeor). Returns none for an
incomplete profile; under the completeness guard the getD defaults are never
used, they only discharge the Option types. -/
def computeBmr (profile : Profile) : Option ℚ :=
  if isProfileComplete profile then
    some (10 * profile.weightKg.getD 0 + 6.25 * profile.heightCm.getD 0
      - 5 * profile.age.getD 0
      + (if profile.gender.getD "" = "female" then -161 else 5))
  else none

/-- computeTdee from profile-metrics.js: Math.round(bmr * activityMultiplier),
none when the BMR or the multiplier is unavailable. -/
def computeTdee (profile : Profile) : Option ℤ :=
  match computeBmr profile with
  | none => none
  | some bmr =>
      match profile.activityLevel.bind activityMultiplier with
      | some multiplier => some (jsRound (bmr * multiplier))
      | none => none

/-- computeHealthyCalorieRangeFromTdee from profile-metrics.js: rounds the
strategy band edges around the TDEE anchor; the maintain band is the fallback. -/
def computeHealthyCalorieRangeFromTdee (tdee : Option ℤ) (strategy : String) :
    Option (ℤ × ℤ) :=
  match tdee with
  | none => none
  | some t =>
      let band := (calorieStrategyBand strategy).getD (0.9, 1.1)
      some (jsRound ((t : ℚ) * band.1), jsRound ((t : ℚ) * band.2))

/-- computeHealthyCalorieRange from profile-metrics.js. -/
def computeHealthyCalorieRange (profile : Profile) (strategy : String) :
    Option (ℤ × ℤ) :=
  computeHealthyCalorieRangeFromTdee (computeTdee profile) strategy

/-- Calorie adherence breakdown returned by evaluateCalorieAdherencePenalty
and carried inside the behavior result (main.js). -/
structure CalorieAdherence where
  evaluatedDays : ℕ
  deviationDays : ℕ
  inRangeStreak : ℕ
  rangeMin : Option ℤ
  rangeMax : Option ℤ
  enabled : Bool
deriving Repr, DecidableEq

/-- Rest-day block of the behavior result (main.js). -/
structure RestDayStatus where
  eligible : Bool
  remainingThisWindow : ℕ
  message : String
deriving Repr, DecidableEq

/-- Calorie effect object returned by evaluateCalorieAdherencePenalty (main.js). -/
structure CalorieEffect where
  caloriePenaltyRate : ℚ
  calorieRecoveryRate : ℚ
  calorieAdherence : CalorieAdherence
deriving Repr, DecidableEq

/-- Full result record of evaluateBehaviorMechanics (main.js). -/
structure BehaviorResult where
  totalMissedDays : ℕ
  missedDayPenaltyRate : ℚ
  caloriePenaltyRate : ℚ
  penaltyRate : ℚ
  recoveryRate : ℚ
  calorieRecoveryRate : ℚ
  currentStreak : ℕ
  comebackStreak : ℕ
  calorieAdherence : CalorieAdherence
  restDay : RestDayStatus
deriving Repr, DecidableEq

/-- countImplicitMissedDays from main.js: over consecutive date pairs, a gap of
dayGap calendar days contributes dayGap - 1 implicit missed days when dayGap
exceeds 1, else nothing. -/
def countImplicitMissedDays (orderedDateKeys : List ℤ) : ℕ :=
  ((orderedDateKeys.zip orderedDateKeys.tail).map
    (fun pc => if 1 < pc.2 - pc.1 then (pc.2 - pc.1 - 1).toNat else 0)).sum

/-- Backward walk shared by countCurrentStreak and countComebackStreak: starting
from the newest date, counts how many consecutive one-day steps precede it. -/
def countBackwardRun (cur : ℤ) : List ℤ → ℕ
  | [] => 0
  | prev :: rest => if cur - prev = 1 then 1 + countBackwardRun prev rest else 0

/-- countCurrentStreak from main.js: streak starts at 1 and extends while the
gap walking backward is exactly one day. -/
def countCurrentStreak (orderedDateKeys : List ℤ) : ℕ :=
  match orderedDateKeys.reverse with
  | [] => 1
  | latest :: earlier => 1 + countBackwardRun latest earlier

/-- countComebackStreak from main.js: identical backward walk, stopping at the
first gap larger than one day. -/
def countComebackStreak (orderedDateKeys : List ℤ) : ℕ :=
  match orderedDateKeys.reverse with
  | [] => 1
  | latest :: earlier => 1 + countBackwardRun latest earlier

/-- Backward walk of countTrailingInRangeStreak: stops on a missing calorie
value or an out-of-range day. -/
def countInRangeRun (entriesMap : ℤ → Option DailyEntry) (lo hi : ℤ) :
    List ℤ → ℕ
  | [] => 0
  | d :: rest =>
      match (entriesMap d).bind (fun e => e.calories) with
      | none => 0
      | some c =>
          if c < (lo : ℚ) ∨ (hi : ℚ) < c then 0
          else 1 + countInRangeRun entriesMap lo hi rest

/-- countTrailingInRangeStreak from main.js, walking the recent keys from the
newest backward. -/
def countTrailingInRangeStreak (recentDateKeys : List ℤ)
    (entriesMap : ℤ → Option DailyEntry) (lo hi : ℤ) : ℕ :=
  countInRangeRun entriesMap lo hi recentDateKeys.reverse

/-- Calories logged for a date key, when the entry exists and the field is a
finite number (main.js uses Number.isFinite on the optional chain). -/
def caloriesAt (entriesMap : ℤ → Option DailyEntry) (d : ℤ) : Option ℚ :=
  (entriesMap d).bind (fun e => e.calories)

/-- evaluateCalorieAdherencePenalty from main.js. -/
def evaluateCalorieAdherencePenalty (orderedDateKeys : List ℤ)
    (entriesMap : ℤ → Option DailyEntry) (profile : Profile) : CalorieEffect :=
  match (if isProfileComplete profile
         then computeHealthyCalorieRange profile "maintain" else none) with
  | none =>
      ⟨0, 0, ⟨0, 0, 0, none, none, false⟩⟩
  | some healthyRange =>
      let recentDateKeys :=
        orderedDateKeys.drop (orderedDateKeys.length - CALORIE_LOOKBACK_DAYS)
      let loggedCalories := recentDateKeys.filterMap (caloriesAt entriesMap)
      let evaluatedDays := loggedCalories.length
      let deviationDays :=
        (loggedCalories.filter
          (fun c => c < (healthyRange.1 : ℚ) || (healthyRange.2 : ℚ) < c)).length
      let inRangeStreak :=
        countTrailingInRangeStreak recentDateKeys entriesMap
          healthyRange.1 healthyRange.2
      let caloriePenaltyRate :=
        min ((deviationDays : ℚ) * CALORIE_PENALTY_PER_DEVIATION_DAY)
          CALORIE_PENALTY_MAX_RATE
      let calorieRecoveryRate :=
        if CALORIE_RECOVERY_TRIGGER_STREAK ≤ inRangeStreak then
          min (((inRangeStreak - CALORIE_RECOVERY_TRIGGER_STREAK + 1 : ℕ) : ℚ)
              * CALORIE_RECOVERY_STEP_RATE)
            CALORIE_RECOVERY_MAX_RATE
        else 0
      ⟨caloriePenaltyRate, calorieRecoveryRate,
        ⟨evaluatedDays, deviationDays, inRangeStreak,
          some healthyRange.1, some healthyRange.2, true⟩⟩

/-- countRecentSingleDayGaps from main.js: counts consecutive pairs whose later
date lies in the trailing window of windowDays days ending at the latest logged
date and whose gap is exactly two days. -/
def countRecentSingleDayGaps (orderedDateKeys : List ℤ) (windowDays : ℤ) : ℕ :=
  if orderedDateKeys.length < 2 then 0
  else
    let latestLogged := orderedDateKeys.getLastD 0
    let windowStart := latestLogged - windowDays + 1
    ((orderedDateKeys.zip orderedDateKeys.tail).filter
      (fun pc => decide (windowStart ≤ pc.2) && decide (pc.2 - pc.1 = 2))).length

/-- Message for the empty-log branch of evaluateBehaviorMechanics. -/
def restDayMsgEmpty : String :=
  "Log a few days first, then a rest day can be treated as intentional recovery."

/-- Message of evaluateRestDayEligibility when the streak is inactive. -/
def restDayMsgInactive : String :=
  "No stress—log one day to reactivate momentum before taking a protected rest day."

/-- Message of evaluateRestDayEligibility when the current streak is short; the
source interpolates REST_DAY_MIN_STREAK = 3. -/
def restDayMsgBuildStreak : String :=
  "Build to a 3-day streak first; then one planned rest day is protected."

/-- Message of evaluateRestDayEligibility when the window allowance was spent;
the source interpolates REST_DAY_WINDOW_DAYS = 7. -/
def restDayMsgUsed : String :=
  "Rest-day protection was already used in the last 7 days. It refreshes automatically."

/-- Message of evaluateRestDayEligibility when a protected rest day is
available; the source interpolates the count and REST_DAY_WINDOW_DAYS = 7. -/
def restDayMsgAvailable (remainingThisWindow : ℕ) : String :=
  "You can take " ++ toString remainingThisWindow
    ++ " protected rest day in the current 7-day window."

/-- evaluateRestDayEligibility from main.js. daysSinceLatest is the exact
day-number difference (see the header note on rounding). The ℕ subtraction
producing remainingThisWindow is the Math.max(0, maxUses - usage) of the
source. -/
def evaluateRestDayEligibility (orderedDateKeys : List ℤ) (currentStreak : ℕ)
    (referenceDay : ℤ) : RestDayStatus :=
  let latestLogged := orderedDateKeys.getLastD 0
  let daysSinceLatest := referenceDay - latestLogged
  let recentRestUsage :=
    countRecentSingleDayGaps orderedDateKeys (REST_DAY_WINDOW_DAYS : ℤ)
  let remainingThisWindow := REST_DAY_MAX_USES_PER_WINDOW - recentRestUsage
  if 1 < daysSinceLatest then
    ⟨false, remainingThisWindow, restDayMsgInactive⟩
  else if currentStreak < REST_DAY_MIN_STREAK then
    ⟨false, remainingThisWindow, restDayMsgBuildStreak⟩
  else if remainingThisWindow = 0 then
    ⟨false, remainingThisWindow, restDayMsgUsed⟩
  else
    ⟨true, remainingThisWindow, restDayMsgAvailable remainingThisWindow⟩

/-- evaluateBehaviorMechanics from main.js; referenceDay is the day number of
the referenceDate clock anchor. -/
def evaluateBehaviorMechanics (orderedDateKeys : List ℤ)
    (entriesMap : ℤ → Option DailyEntry) (profile : Profile)
    (referenceDay : ℤ) : BehaviorResult :=
  if orderedDateKeys.length = 0 then
    ⟨0, 0, 0, 0, 0, 0, 0, 0, ⟨0, 0, 0, none, none, false⟩,
      ⟨false, REST_DAY_MAX_USES_PER_WINDOW, restDayMsgEmpty⟩⟩
  else
    let totalMissedDays := countImplicitMissedDays orderedDateKeys
    let currentStreak := countCurrentStreak orderedDateKeys
    let comebackStreak := countComebackStreak orderedDateKeys
    let missedDayPenaltyRate :=
      min ((totalMissedDays : ℚ) * SOFT_PENALTY_PER_MISSED_DAY)
        SOFT_PENALTY_MAX_RATE
    let calorieEffect :=
      evaluateCalorieAdherencePenalty orderedDateKeys entriesMap profile
    let caloriePenaltyRate := calorieEffect.caloriePenaltyRate
    let calorieRecoveryRate := calorieEffect.calorieRecoveryRate
    let penaltyRate :=
      min TOTAL_PENALTY_MAX_RATE (missedDayPenaltyRate + caloriePenaltyRate)
    let streakRecoveryRate :=
      if RECOVERY_TRIGGER_STREAK ≤ comebackStreak then
        min (((comebackStreak - RECOVERY_TRIGGER_STREAK + 1 : ℕ) : ℚ)
            * RECOVERY_STEP_RATE)
          RECOVERY_MAX_RATE
      else 0
    let recoveryRate :=
      min (RECOVERY_MAX_RATE + CALORIE_RECOVERY_MAX_RATE)
        (streakRecoveryRate + calorieRecoveryRate)
    let restDay :=
      evaluateRestDayEligibility orderedDateKeys currentStreak referenceDay
    ⟨totalMissedDays, missedDayPenaltyRate, caloriePenaltyRate, penaltyRate,
      recoveryRate, calorieRecoveryRate, currentStreak, comebackStreak,
      calorieEffect.calorieAdherence, restDay⟩

/-- applyBehaviorXpAdjustments from main.js. -/
def applyBehaviorXpAdjustments (baseOverallXp : ℤ) (penaltyRate recoveryRate : ℚ) :
    ℤ × ℤ × ℤ :=
  let penaltyXp := jsRound ((baseOverallXp : ℚ) * penaltyRate)
  let recoveryXp := jsRound ((baseOverallXp : ℚ) * recoveryRate)
  (penaltyXp, recoveryXp, max 0 (baseOverallXp - penaltyXp + recoveryXp))

/-- xpToNextLevel from progression.js: Math.round(100 * 1.25 ^ (level - 1)). -/
def xpToNextLevel (level : ℕ) : ℕ :=
  (jsRound (100 * (5 / 4 : ℚ) ^ (level - 1))).toNat

/-- Level summary returned by levelFromXp (progression.js). -/
structure LevelInfo where
  level : ℕ
  inLevelXp : ℕ
  next : ℕ
deriving Repr, DecidableEq

/-- Loop of levelFromXp: repeatedly subtract the next-level threshold while the
remaining XP reaches it. Terminates because every threshold is positive. -/
def levelFromXpGo (level remaining : ℕ) : LevelInfo :=
  if xpToNextLevel level ≤ remaining then
    levelFromXpGo (level + 1) (remaining - xpToNextLevel level)
  else
    ⟨level, remaining, xpToNextLevel level⟩
termination_by remaining
decreasing_by
  have h14 : (1 : ℚ) ≤ (5 / 4 : ℚ) ^ (level - 1) := one_le_pow₀ (by norm_num)
  have h100 : (100 : ℤ) ≤ jsRound (100 * (5 / 4 : ℚ) ^ (level - 1)) := by
    rw [jsRound]
    refine Int.le_floor.mpr ?_
    push_cast
    nlinarith
  have hpos : 0 < xpToNextLevel level := by
    rw [xpToNextLevel]
    omega
  omega

/-- levelFromXp from progression.js, starting at level 1 with the full XP. -/
def levelFromXp (xp : ℕ) : LevelInfo := levelFromXpGo 1 xp

/-- Cumulative XP needed to reach a level from XP zero: the sum of
xpToNextLevel over levels 1 through L - 1. -/
def cumulativeXp (L : ℕ) : ℕ := ∑ i ∈ Finset.Ico 1 L, xpToNextLevel i

/-- Per-entry skill-gain object of computeSkillGains (progression.js). The JS
object has exactly these four keys; skills of the attribute table that never
receive gains are absent there and default to zero during aggregation. -/
structure SkillXp where
  energy : ℕ
  organisation : ℕ
  emotionalBalance : ℕ
  strength : ℕ
deriving Repr, DecidableEq

/-- Attribute XP rollup keyed Body, Mind, Soul (constants.js ATTRIBUTE_SKILLS). -/
structure AttributeXp where
  body : ℕ
  mind : ℕ
  soul : ℕ
deriving Repr, DecidableEq

/-- computeSkillGains from progression.js: fixed base grants plus the three
conditional bonuses; a null field fails every JS numeric comparison. -/
def computeSkillGains (entry : DailyEntry) : SkillXp :=
  let energy :=
    5 + (match entry.sleepHours with
      | some s => if 7 ≤ s ∧ s ≤ 9 then 5 else 0
      | none => 0)
  let strength :=
    15 + (match entry.exerciseMinutes, entry.exerciseEffort with
      | some m, some e => if 30 ≤ m ∧ 6 ≤ e then 10 else 0
      | _, _ => 0)
  let emotionalBalance :=
    5 + (match entry.mood with
      | some m => if 7 ≤ m then 5 else 0
      | none => 0)
  ⟨energy, 5, emotionalBalance, strength⟩

/-- Acceptance map for the three quest templates (constants.js QUESTS keys). -/
structure AcceptedQuests where
  dailyLog30 : Bool
  exercise10 : Bool
  weekly7 : Bool
deriving Repr, DecidableEq

/-- Per-quest progress cell of the snapshot. -/
structure QuestState where
  current : ℕ
  target : ℕ
  accepted : Bool
deriving Repr, DecidableEq

/-- Quest map of the snapshot, keyed by the static QUESTS ids. -/
structure QuestProgress where
  dailyLog30 : QuestState
  exercise10 : QuestState
  weekly7 : QuestState
deriving Repr, DecidableEq

/-- Monday (ISO week start) of the week containing the given day number,
mirroring startOfCurrentWeek / the inline weekStart of computeQuestProgress. -/
def weekStartOf (today : ℤ) : ℤ := today - (jsGetDay today + 6) % 7

/-- computeQuestProgress from progression.js; nowDay is the day number of the
new Date() clock read. Tracking is blocked until a quest is accepted. -/
def computeQuestProgress (entries : List DailyEntry)
    (acceptedQuests : AcceptedQuests) (nowDay : ℤ) : QuestProgress :=
  let logs := entries.length
  let exerciseSessions :=
    (entries.filter (fun e =>
      match e.exerciseMinutes with
      | some m => decide (0 < m)
      | none => false)).length
  let weekStart := weekStartOf nowDay
  let weeklyCount := (entries.filter (fun e => decide (weekStart ≤ e.date))).length
  { dailyLog30 :=
      ⟨if acceptedQuests.dailyLog30 then logs else 0, 30,
        acceptedQuests.dailyLog30⟩
    exercise10 :=
      ⟨if acceptedQuests.exercise10 then exerciseSessions else 0, 10,
        acceptedQuests.exercise10⟩
    weekly7 :=
      ⟨if acceptedQuests.weekly7 then weeklyCount else 0, 7,
        acceptedQuests.weekly7⟩ }

/-- ProgressionSnapshot returned by computeProgression (progression.js). -/
structure ProgressionSnapshot where
  overallXp : ℕ
  skillXp : SkillXp
  attributeXp : AttributeXp
  quests : QuestProgress
  orderedEntries : List DailyEntry
deriving Repr, DecidableEq

/-- computeProgression from progression.js. The raw entries object is embedded
as its key list (in arbitrary JS insertion order) plus the keyed lookup; the
code sorts the keys and maps them through the lookup. Attribute XP follows the
ATTRIBUTE_SKILLS table with zero for skills absent from the gains map:
Body = Strength + Flexibility + Energy, Mind = Learning + Organisation +
Creativity, Soul = Mindfulness + Emotional Balance + Connection. -/
def computeProgression (entryKeys : List ℤ)
    (entriesMap : ℤ → Option DailyEntry) (acceptedQuests : AcceptedQuests)
    (nowDay : ℤ) : ProgressionSnapshot :=
  let orderedEntries :=
    (entryKeys.insertionSort (· ≤ ·)).filterMap entriesMap
  let overallXp := orderedEntries.foldl (fun acc _ => acc + 20) 0
  let skillXp := orderedEntries.foldl
    (fun acc e =>
      let gains := computeSkillGains e
      ⟨acc.energy + gains.energy, acc.organisation + gains.organisation,
        acc.emotionalBalance + gains.emotionalBalance,
        acc.strength + gains.strength⟩)
    (⟨0, 0, 0, 0⟩ : SkillXp)
  let attributeXp : AttributeXp :=
    ⟨skillXp.strength + skillXp.energy, skillXp.organisation,
      skillXp.emotionalBalance⟩
  let quests := computeQuestProgress orderedEntries acceptedQuests nowDay
  ⟨overallXp, skillXp, attributeXp, quests, orderedEntries⟩

/-- Streak summary returned by computeStreakMetrics (progression.js). -/
structure StreakMetrics where
  currentStreak : ℕ
  longestStreak : ℕ
  currentWeekCompletion : ℕ
deriving Repr, DecidableEq

/-- computeStreakMetrics from progression.js; todayDay is the day number of the
new Date() clock read. The forward pass tracks the ending run and the longest
run; the ending run only counts as the current streak while the latest log is
today or yesterday (or in the future). -/
def computeStreakMetrics (entryKeys : List ℤ) (todayDay : ℤ) : StreakMetrics :=
  let orderedDateKeys := entryKeys.insertionSort (· ≤ ·)
  if orderedDateKeys.length = 0 then ⟨0, 0, 0⟩
  else
    let runs :=
      (orderedDateKeys.zip orderedDateKeys.tail).foldl
        (fun (st : ℕ × ℕ) pc =>
          if pc.2 - pc.1 = 1 then (st.1 + 1, max st.2 (st.1 + 1)) else (1, st.2))
        (1, 1)
    let latestLogged := orderedDateKeys.getLastD 0
    let daysSinceLatest := todayDay - latestLogged
    let currentStreak := if daysSinceLatest ≤ 1 then runs.1 else 0
    let currentWeekStart := weekStartOf todayDay
    let currentWeekCompletion :=
      (orderedDateKeys.filter (fun d => decide (currentWeekStart ≤ d))).length
    ⟨currentStreak, runs.2, currentWeekCompletion⟩

/-- Date ordering on entries used by the sorts in metric-analytics.js and
profile-metrics.js (localeCompare on YYYY-MM-DD keys is date order). -/
def dateLe (a b : DailyEntry) : Prop := a.date ≤ b.date

instance : DecidableRel dateLe :=
  fun a b => inferInstanceAs (Decidable (a.date ≤ b.date))

instance : IsTotal DailyEntry dateLe := ⟨fun a b => le_total a.date b.date⟩

instance : IsTrans DailyEntry dateLe := ⟨fun _ _ _ h1 h2 => le_trans h1 h2⟩

/-- Stable date sort of an entry list, as done inline by getMetricWindow and
computeDynamicTdee. -/
def sortedByDate (entries : List DailyEntry) : List DailyEntry :=
  entries.insertionSort dateLe

/-- Metric keys of the six daily fields (constants.js DAILY_FIELDS). -/
inductive MetricKey where
  | calories
  | sleepHours
  | mood
  | steps
  | exerciseMinutes
  | exerciseEffort
deriving Repr, DecidableEq

/-- Field selection entry[metricKey] used by getMetricWindow. -/
def metricValue (k : MetricKey) (e : DailyEntry) : Option ℚ :=
  match k with
  | .calories => e.calories
  | .sleepHours => e.sleepHours
  | .mood => e.mood
  | .steps => e.steps
  | .exerciseMinutes => e.exerciseMinutes
  | .exerciseEffort => e.exerciseEffort

/-- Lookup in the Map built from the sorted entry pairs: with duplicate dates
the last inserted entry wins, which is the last matching element of the list. -/
def entryByDate (l : List DailyEntry) (d : ℤ) : Option DailyEntry :=
  (l.filter (fun e => e.date == d)).getLast?

/-- Latest logged date used as the window anchor, or today when there are no
entries (getMetricWindow in metric-analytics.js). -/
def latestWindowDate (entries : List DailyEntry) (todayDay : ℤ) : ℤ :=
  match (sortedByDate entries).getLast? with
  | some e => e.date
  | none => todayDay

/-- One point of the metric window series. -/
structure MetricPoint where
  date : ℤ
  value : Option ℚ
deriving Repr, DecidableEq

/-- Point built by the getMetricWindow loop body for one dateKey: the entry
lookup with null for a missing date or a missing metric value. -/
def metricPointAt (sortedEntries : List DailyEntry) (k : MetricKey) (dateKey : ℤ) :
    MetricPoint :=
  match entryByDate sortedEntries dateKey with
  | none => ⟨dateKey, none⟩
  | some e => ⟨dateKey, metricValue k e⟩

/-- getMetricWindow from metric-analytics.js; todayDay is the day number of the
new Date() fallback anchor. Offsets count forward to the anchor date, and dates
missing from the entries (or with a missing metric value) yield null. -/
def getMetricWindow (entries : List DailyEntry) (k : MetricKey) (days : ℕ)
    (todayDay : ℤ) : List MetricPoint :=
  let safeDays := if 0 < days then days else 30
  let sortedEntries := sortedByDate entries
  let latestDate := latestWindowDate entries todayDay
  (List.range safeDays).map (fun (offset : ℕ) =>
    metricPointAt sortedEntries k
      (latestDate - ((safeDays : ℤ) - (offset : ℤ) - 1)))

/-- DYNAMIC_TDEE_WINDOW_DAYS from profile-metrics.js. -/
def DYNAMIC_TDEE_WINDOW_DAYS : ℕ := 14

/-- Delta-cap constant 0.12 of profile-metrics.js, there named with a final
RA TIO word that this embedding shortens. -/
def DYNAMIC_TDEE_MAX_DELTA : ℚ := 0.12

/-- DYNAMIC_TDEE_SMOOTHING_ALPHA from profile-metrics.js. -/
def DYNAMIC_TDEE_SMOOTHING_ALPHA : ℚ := 0.6

/-- safeAverage from profile-metrics.js. The JS function first filters the
finite values; callers of this embedding pass the already-filtered list
(filterMap over nullable fields), so only the empty guard remains. -/
def safeAverage (values : List ℚ) : ℚ :=
  if values.length = 0 then 0 else values.sum / values.length

/-- averageFinite from profile-metrics.js, with its fallback for an empty
list; its inputs here are always finite rationals. -/
def averageFinite (values : List ℚ) (fallback : ℚ) : ℚ :=
  if values.length = 0 then fallback else values.sum / values.length

/-- computeStandardDeviation from profile-metrics.js; the Math.sqrt forces the
real codomain. -/
noncomputable def computeStandardDeviation (values : List ℚ) : ℝ :=
  if values.length < 2 then 0
  else
    Real.sqrt
      ((safeAverage (values.map (fun v => (v - safeAverage values) ^ 2)) : ℚ) : ℝ)

/-- Math.sign for a rational input. -/
def qSign (q : ℚ) : ℚ := if q < 0 then -1 else if 0 < q then 1 else 0

/-- describeTdeeDelta from profile-metrics.js. -/
noncomputable def describeTdeeDelta (deltaRatio : ℝ) : String :=
  if |deltaRatio| < 0.01 then
    "Dynamic TDEE is stable and aligned with your baseline profile estimate."
  else if 0 < deltaRatio then
    "Dynamic TDEE is slightly elevated from recent activity and intake trends."
  else
    "Dynamic TDEE is slightly reduced based on recent recovery and intake trends."

/-- Result record of computeDynamicTdee (profile-metrics.js). -/
structure DynamicTdeeResult where
  baselineTdee : Option ℤ
  dynamicTdee : Option ℤ
  delta : ℤ
  deltaRatio : ℝ
  interpretation : String

/-- computeDynamicTdee from profile-metrics.js. All averages are over the
trailing DYNAMIC_TDEE_WINDOW_DAYS entries of the date-sorted list; the
filterMap calls embed the Number.isFinite filters over nullable fields. -/
noncomputable def computeDynamicTdee (profile : Profile)
    (entries : List DailyEntry) : DynamicTdeeResult :=
  match computeTdee profile with
  | none =>
      ⟨none, none, 0, 0,
        "Complete all profile fields to calculate baseline and adaptive TDEE."⟩
  | some baselineTdee =>
      let orderedEntries := sortedByDate entries
      let windowEntries :=
        orderedEntries.drop (orderedEntries.length - DYNAMIC_TDEE_WINDOW_DAYS)
      let avgExerciseMinutes :=
        safeAverage (windowEntries.filterMap (fun e => e.exerciseMinutes))
      let avgExerciseEffort :=
        safeAverage (windowEntries.filterMap (fun e => e.exerciseEffort))
      let avgSteps := safeAverage (windowEntries.filterMap (fun e => e.steps))
      let calorieValues := windowEntries.filterMap (fun e => e.calories)
      let calorieRatios := calorieValues.map
        (fun v => (v - (baselineTdee : ℚ)) / (baselineTdee : ℚ))
      let activityLoadRatio :=
        averageFinite
          [avgExerciseMinutes / 45, avgExerciseEffort / 6, avgSteps / 8000] 1
      let activityDeltaRatio :=
        clamp ((activityLoadRatio - 1) * 0.08) (-0.06) 0.1
      let intakeDeltaRatio := clamp (safeAverage calorieRatios * 0.35) (-0.08) 0.08
      let intakeVarianceRatio : ℝ :=
        min 0.05 (computeStandardDeviation calorieRatios * 0.25)
      let rawDeltaRatio := activityDeltaRatio + intakeDeltaRatio
      let varianceDampenedDeltaRatio : ℝ :=
        (qSign rawDeltaRatio : ℝ) * max 0 (|(rawDeltaRatio : ℝ)| - intakeVarianceRatio)
      let cappedDeltaRatio : ℝ :=
        clamp varianceDampenedDeltaRatio (-(DYNAMIC_TDEE_MAX_DELTA : ℝ))
          (DYNAMIC_TDEE_MAX_DELTA : ℝ)
      let smoothDeltaRatio : ℝ :=
        cappedDeltaRatio * (DYNAMIC_TDEE_SMOOTHING_ALPHA : ℝ)
      let dynamicTdee : ℤ :=
        ⌊(baselineTdee : ℝ) * (1 + smoothDeltaRatio) + 1 / 2⌋
      ⟨some baselineTdee, some dynamicTdee, dynamicTdee - baselineTdee,
        smoothDeltaRatio, describeTdeeDelta smoothDeltaRatio⟩

/-- Spec formula for the missed-day count: sum over consecutive date pairs of
max(0, gapDays - 1), written from the spec wording for comparison with
countImplicitMissedDays. -/
def missedDaysSpecFormula (l : List ℤ) : ℤ :=
  ((l.zip l.tail).map (fun pc => max 0 (pc.2 - pc.1 - 1))).sum

/-- Helper: the code loop of countImplicitMissedDays computes the spec formula
on every date list. -/
theorem countImplicitMissedDays_eq_specFormula (l : List ℤ) :
    (countImplicitMissedDays l : ℤ) = missedDaysSpecFormula l := by
  unfold countImplicitMissedDays missedDaysSpecFormula
  induction l.zip l.tail with
  | nil => rfl
  | cons pc ps ih =>
      simp only [List.map_cons, List.sum_cons, Nat.cast_add, ih]
      congr 1
      by_cases h : 1 < pc.2 - pc.1
      · rw [if_pos h, Int.toNat_of_nonneg (by omega), max_eq_right (by omega)]
      · rw [if_neg h, max_eq_left (by omega)]
        rfl

/-- C4: for every input, the combined penalty rate of evaluateBehaviorMechanics
equals min(missedDayPenaltyRate + caloriePenaltyRate, 0.30) and therefore never
exceeds 0.30. -/
theorem penaltyRate_combined_min_and_cap :
    ∀ (orderedDateKeys : List ℤ) (entriesMap : ℤ → Option DailyEntry)
      (profile : Profile) (referenceDay : ℤ),
      (evaluateBehaviorMechanics orderedDateKeys entriesMap profile
          referenceDay).penaltyRate
        = min ((evaluateBehaviorMechanics orderedDateKeys entriesMap profile
              referenceDay).missedDayPenaltyRate
            + (evaluateBehaviorMechanics orderedDateKeys entriesMap profile
              referenceDay).caloriePenaltyRate)
          (0.3 : ℚ)
      ∧ (evaluateBehaviorMechanics orderedDateKeys entriesMap profile
          referenceDay).penaltyRate ≤ (0.3 : ℚ) := by
  intro l em p ref
  by_cases h : l.length = 0
  · constructor
    · norm_num [evaluateBehaviorMechanics, h]
    · norm_num [evaluateBehaviorMechanics, h]
  · constructor
    · simp only [evaluateBehaviorMechanics, if_neg h]
      exact min_comm _ _
    · simp only [evaluateBehaviorMechanics, if_neg h]
      exact min_le_left _ _

/-- C9: an empty entry log yields the zero and neutral state: all five rates
are zero and the rest day is not eligible; the embedding is a total function,
so no exception can occur. -/
theorem evaluateBehaviorMechanics_empty_neutral :
    ∀ (entriesMap : ℤ → Option DailyEntry) (profile : Profile)
      (referenceDay : ℤ),
      (evaluateBehaviorMechanics [] entriesMap profile
          referenceDay).missedDayPenaltyRate = 0
      ∧ (evaluateBehaviorMechanics [] entriesMap profile
          referenceDay).caloriePenaltyRate = 0
      ∧ (evaluateBehaviorMechanics [] entriesMap profile
          referenceDay).penaltyRate = 0
      ∧ (evaluateBehaviorMechanics [] entriesMap profile
          referenceDay).recoveryRate = 0
      ∧ (evaluateBehaviorMechanics [] entriesMap profile
          referenceDay).calorieRecoveryRate = 0
      ∧ (evaluateBehaviorMechanics [] entriesMap profile
          referenceDay).restDay.eligible = false :=
  fun _ _ _ => ⟨rfl, rfl, rfl, rfl, rfl, rfl⟩

/-- C5: for a non-empty sorted list of distinct dates, the reported missed-day
count is the pairwise sum of max(0, gapDays - 1), and the missed-day penalty
rate is min(missedDays * 0.02, 0.25). -/
theorem missedDays_count_and_rate :
    ∀ (orderedDateKeys : List ℤ) (entriesMap : ℤ → Option DailyEntry)
      (profile : Profile) (referenceDay : ℤ),
      orderedDateKeys ≠ [] → orderedDateKeys.Sorted (· < ·) →
      ((evaluateBehaviorMechanics orderedDateKeys entriesMap profile
          referenceDay).totalMissedDays : ℤ)
        = missedDaysSpecFormula orderedDateKeys
      ∧ (evaluateBehaviorMechanics orderedDateKeys entriesMap profile
          referenceDay).missedDayPenaltyRate
        = min ((missedDaysSpecFormula orderedDateKeys : ℚ) * 0.02) 0.25 := by
  intro l em p ref hne _hsorted
  have hlen : ¬ l.length = 0 := by simpa [List.length_eq_zero] using hne
  have hcount := countImplicitMissedDays_eq_specFormula l
  constructor
  · simp only [evaluateBehaviorMechanics, if_neg hlen]
    exact hcount
  · simp only [evaluateBehaviorMechanics, if_neg hlen,
      SOFT_PENALTY_PER_MISSED_DAY, SOFT_PENALTY_MAX_RATE]
    congr 2
    exact_mod_cast hcount

/-- Witness for C5 at the concrete log day 0, day 1, day 3. -/
theorem missedDays_count_and_rate_witness :
    ((evaluateBehaviorMechanics [0, 1, 3] (fun _ => none)
        ⟨none, none, none, none, none⟩ 3).totalMissedDays : ℤ)
      = missedDaysSpecFormula [0, 1, 3]
    ∧ (evaluateBehaviorMechanics [0, 1, 3] (fun _ => none)
        ⟨none, none, none, none, none⟩ 3).missedDayPenaltyRate
      = min ((missedDaysSpecFormula [0, 1, 3] : ℚ) * 0.02) 0.25 :=
  missedDays_count_and_rate [0, 1, 3] (fun _ => none)
    ⟨none, none, none, none, none⟩ 3 (by decide) (by decide)

/-- C10: for a non-empty date list the behavior engine reports a current
streak of at least 1 no matter how stale the latest log is, while
computeStreakMetrics zeroes its current streak when the latest log is older
than yesterday. -/
theorem behaviorStreak_persists_unlike_streakMetrics :
    (∀ (orderedDateKeys : List ℤ) (entriesMap : ℤ → Option DailyEntry)
        (profile : Profile) (referenceDay : ℤ),
      orderedDateKeys ≠ [] →
      1 ≤ (evaluateBehaviorMechanics orderedDateKeys entriesMap profile
          referenceDay).currentStreak)
    ∧ (∀ (entryKeys : List ℤ) (todayDay : ℤ),
        entryKeys.Sorted (· ≤ ·) →
        1 < todayDay - entryKeys.getLastD 0 →
        (computeStreakMetrics entryKeys todayDay).currentStreak = 0) := by
  constructor
  · intro l em p ref hne
    have hlen : ¬ l.length = 0 := by simpa [List.length_eq_zero] using hne
    simp only [evaluateBehaviorMechanics, if_neg hlen]
    rcases hr : l.reverse with _ | ⟨latest, earlier⟩
    · exact absurd (List.reverse_eq_nil_iff.mp hr) hne
    · simp [countCurrentStreak, hr]
  · intro keys today hsorted hstale
    have hsort : keys.insertionSort (· ≤ ·) = keys :=
      List.Sorted.insertionSort_eq hsorted
    by_cases hlen : keys.length = 0
    · simp [computeStreakMetrics, hsort, hlen]
    · simp only [computeStreakMetrics, hsort, if_neg hlen]
      rw [if_neg (by omega)]

/-- Witness for C10: a single log on day 0 with the behavior engine anchored
at day 50, and streak metrics read on day 50. -/
theorem behaviorStreak_persists_unlike_streakMetrics_witness :
    1 ≤ (evaluateBehaviorMechanics [0] (fun _ => none)
        ⟨none, none, none, none, none⟩ 50).currentStreak
    ∧ (computeStreakMetrics [0] 50).currentStreak = 0 :=
  ⟨behaviorStreak_persists_unlike_streakMetrics.1 [0] (fun _ => none)
      ⟨none, none, none, none, none⟩ 50 (by decide),
    behaviorStreak_persists_unlike_streakMetrics.2 [0] 50 (by decide)
      (by decide)⟩

/-- C8: in the progression snapshot, each quest counter is zero whenever that
quest is not accepted, regardless of the entry log, and each target comes from
the static quest definitions. -/
theorem questCurrent_zero_unless_accepted :
    ∀ (entryKeys : List ℤ) (entriesMap : ℤ → Option DailyEntry)
      (acceptedQuests : AcceptedQuests) (nowDay : ℤ),
      (acceptedQuests.dailyLog30 = false →
        (computeProgression entryKeys entriesMap acceptedQuests
            nowDay).quests.dailyLog30.current = 0)
      ∧ (acceptedQuests.exercise10 = false →
        (computeProgression entryKeys entriesMap acceptedQuests
            nowDay).quests.exercise10.current = 0)
      ∧ (acceptedQuests.weekly7 = false →
        (computeProgression entryKeys entriesMap acceptedQuests
            nowDay).quests.weekly7.current = 0)
      ∧ (computeProgression entryKeys entriesMap acceptedQuests
          nowDay).quests.dailyLog30.target = 30
      ∧ (computeProgression entryKeys entriesMap acceptedQuests
          nowDay).quests.exercise10.target = 10
      ∧ (computeProgression entryKeys entriesMap acceptedQuests
          nowDay).quests.weekly7.target = 7 := by
  intro keys em a now
  refine ⟨fun h => ?_, fun h => ?_, fun h => ?_, ?_, ?_, ?_⟩
  all_goals simp [computeProgression, computeQuestProgress, *]

/-- Witness for C8: a fully matching one-entry log (exercise minutes over
zero, date inside the current week) with nothing accepted still shows zero
progress on all three quests. -/
theorem questCurrent_zero_unless_accepted_witness :
    (computeProgression [10]
        (fun d => some ⟨d, some 2000, some 8, some 8, some 9000, some 40, some 7⟩)
        ⟨false, false, false⟩ 10).quests.dailyLog30.current = 0
    ∧ (computeProgression [10]
        (fun d => some ⟨d, some 2000, some 8, some 8, some 9000, some 40, some 7⟩)
        ⟨false, false, false⟩ 10).quests.exercise10.current = 0
    ∧ (computeProgression [10]
        (fun d => some ⟨d, some 2000, some 8, some 8, some 9000, some 40, some 7⟩)
        ⟨false, false, false⟩ 10).quests.weekly7.current = 0 :=
  ⟨(questCurrent_zero_unless_accepted [10] _ ⟨false, false, false⟩ 10).1 rfl,
    (questCurrent_zero_unless_accepted [10] _ ⟨false, false, false⟩ 10).2.1 rfl,
    (questCurrent_zero_unless_accepted [10] _ ⟨false, false, false⟩ 10).2.2.1 rfl⟩

/-- C1 (amended): for a non-empty sorted date list, rest-day eligibility holds
exactly when the latest log is no earlier than the day before the reference
day, the current streak is at least REST_DAY_MIN_STREAK, and no single-day gap
(gapDays equal to 2) lies in the trailing REST_DAY_WINDOW_DAYS-day window
ending at the latest log; whenever it does not hold, exactly one of the three
ineligibility messages is produced. -/
theorem restDay_eligibility_characterization :
    ∀ (orderedDateKeys : List ℤ) (entriesMap : ℤ → Option DailyEntry)
      (profile : Profile) (referenceDay : ℤ),
      orderedDateKeys ≠ [] → orderedDateKeys.Sorted (· < ·) →
      ((evaluateBehaviorMechanics orderedDateKeys entriesMap profile
            referenceDay).restDay.eligible = true ↔
        (referenceDay - orderedDateKeys.getLastD 0 ≤ 1
          ∧ REST_DAY_MIN_STREAK ≤ countCurrentStreak orderedDateKeys
          ∧ countRecentSingleDayGaps orderedDateKeys
              (REST_DAY_WINDOW_DAYS : ℤ) = 0))
      ∧ ((evaluateBehaviorMechanics orderedDateKeys entriesMap profile
            referenceDay).restDay.eligible = false →
          ((evaluateBehaviorMechanics orderedDateKeys entriesMap profile
              referenceDay).restDay.message = restDayMsgInactive
            ∧ (evaluateBehaviorMechanics orderedDateKeys entriesMap profile
              referenceDay).restDay.message ≠ restDayMsgBuildStreak
            ∧ (evaluateBehaviorMechanics orderedDateKeys entriesMap profile
              referenceDay).restDay.message ≠ restDayMsgUsed)
          ∨ ((evaluateBehaviorMechanics orderedDateKeys entriesMap profile
              referenceDay).restDay.message = restDayMsgBuildStreak
            ∧ (evaluateBehaviorMechanics orderedDateKeys entriesMap profile
              referenceDay).restDay.message ≠ restDayMsgInactive
            ∧ (evaluateBehaviorMechanics orderedDateKeys entriesMap profile
              referenceDay).restDay.message ≠ restDayMsgUsed)
          ∨ ((evaluateBehaviorMechanics orderedDateKeys entriesMap profile
              referenceDay).restDay.message = restDayMsgUsed
            ∧ (evaluateBehaviorMechanics orderedDateKeys entriesMap profile
              referenceDay).restDay.message ≠ restDayMsgInactive
            ∧ (evaluateBehaviorMechanics orderedDateKeys entriesMap profile
              referenceDay).restDay.message ≠ restDayMsgBuildStreak)) := by
  intro l em p ref hne _hsorted
  have hlen : ¬ l.length = 0 := by simpa [List.length_eq_zero] using hne
  simp only [evaluateBehaviorMechanics, if_neg hlen,
    evaluateRestDayEligibility, REST_DAY_MAX_USES_PER_WINDOW,
    REST_DAY_MIN_STREAK, REST_DAY_WINDOW_DAYS]
  split_ifs with h1 h2 h3
  · constructor
    · simp only [Bool.false_eq_true, false_iff]
      rintro ⟨hd, -, -⟩
      omega
    · intro _
      exact Or.inl ⟨rfl,
        show restDayMsgInactive ≠ restDayMsgBuildStreak by decide,
        show restDayMsgInactive ≠ restDayMsgUsed by decide⟩
  · constructor
    · simp only [Bool.false_eq_true, false_iff]
      rintro ⟨-, hs, -⟩
      omega
    · intro _
      exact Or.inr (Or.inl ⟨rfl,
        show restDayMsgBuildStreak ≠ restDayMsgInactive by decide,
        show restDayMsgBuildStreak ≠ restDayMsgUsed by decide⟩)
  · constructor
    · simp only [Bool.false_eq_true, false_iff]
      rintro ⟨-, -, hg⟩
      omega
    · intro _
      exact Or.inr (Or.inr ⟨rfl,
        show restDayMsgUsed ≠ restDayMsgInactive by decide,
        show restDayMsgUsed ≠ restDayMsgBuildStreak by decide⟩)
  · constructor
    · simp only [true_iff]
      exact ⟨by omega, by omega, by omega⟩
    · intro hfalse
      exact absurd hfalse (by simp)

/-- C1 counterexample to the literal claim: first, with the log on days 5, 6,
8, 9, 10 evaluated on day 10 the most recent log is the reference day, the
streak is 3, and exactly one single-day gap lies in the trailing window, so
the claim calls this eligible, yet the engine reports ineligible (the single
allowance is already spent); second, with future-dated logs 13, 14, 15
evaluated on day 10 the engine reports eligible although the latest log is
neither the reference day nor the day before. -/
theorem restDay_eligibility_claim_counterexample :
    ((evaluateBehaviorMechanics [5, 6, 8, 9, 10] (fun _ => none)
        ⟨none, none, none, none, none⟩ 10).restDay.eligible = false
      ∧ ([5, 6, 8, 9, 10] : List ℤ).getLastD 0 = 10
      ∧ countCurrentStreak [5, 6, 8, 9, 10] = 3
      ∧ countRecentSingleDayGaps [5, 6, 8, 9, 10] 7 = 1)
    ∧ ((evaluateBehaviorMechanics [13, 14, 15] (fun _ => none)
        ⟨none, none, none, none, none⟩ 10).restDay.eligible = true
      ∧ ([13, 14, 15] : List ℤ).getLastD 0 = 15
      ∧ (15 : ℤ) ≠ 10 ∧ (15 : ℤ) ≠ 10 - 1) := by
  refine ⟨⟨rfl, rfl, rfl, rfl⟩, ⟨rfl, rfl, by decide, by decide⟩⟩

/-- Witness for C1 at the concrete log on days 1, 2, 3 evaluated on day 3. -/
theorem restDay_eligibility_characterization_witness :
    ((evaluateBehaviorMechanics [1, 2, 3] (fun _ => none)
          ⟨none, none, none, none, none⟩ 3).restDay.eligible = true ↔
      ((3 : ℤ) - ([1, 2, 3] : List ℤ).getLastD 0 ≤ 1
        ∧ REST_DAY_MIN_STREAK ≤ countCurrentStreak [1, 2, 3]
        ∧ countRecentSingleDayGaps [1, 2, 3] (REST_DAY_WINDOW_DAYS : ℤ) = 0))
    ∧ ((evaluateBehaviorMechanics [1, 2, 3] (fun _ => none)
          ⟨none, none, none, none, none⟩ 3).restDay.eligible = false →
        ((evaluateBehaviorMechanics [1, 2, 3] (fun _ => none)
            ⟨none, none, none, none, none⟩ 3).restDay.message = restDayMsgInactive
          ∧ (evaluateBehaviorMechanics [1, 2, 3] (fun _ => none)
            ⟨none, none, none, none, none⟩ 3).restDay.message ≠ restDayMsgBuildStreak
          ∧ (evaluateBehaviorMechanics [1, 2, 3] (fun _ => none)
            ⟨none, none, none, none, none⟩ 3).restDay.message ≠ restDayMsgUsed)
        ∨ ((evaluateBehaviorMechanics [1, 2, 3] (fun _ => none)
            ⟨none, none, none, none, none⟩ 3).restDay.message = restDayMsgBuildStreak
          ∧ (evaluateBehaviorMechanics [1, 2, 3] (fun _ => none)
            ⟨none, none, none, none, none⟩ 3).restDay.message ≠ restDayMsgInactive
          ∧ (evaluateBehaviorMechanics [1, 2, 3] (fun _ => none)
            ⟨none, none, none, none, none⟩ 3).restDay.message ≠ restDayMsgUsed)
        ∨ ((evaluateBehaviorMechanics [1, 2, 3] (fun _ => none)
            ⟨none, none, none, none, none⟩ 3).restDay.message = restDayMsgUsed
          ∧ (evaluateBehaviorMechanics [1, 2, 3] (fun _ => none)
            ⟨none, none, none, none, none⟩ 3).restDay.message ≠ restDayMsgInactive
          ∧ (evaluateBehaviorMechanics [1, 2, 3] (fun _ => none)
            ⟨none, none, none, none, none⟩ 3).restDay.message
              ≠ restDayMsgBuildStreak)) :=
  restDay_eligibility_characterization [1, 2, 3] (fun _ => none)
    ⟨none, none, none, none, none⟩ 3 (by decide) (by decide)

/-- C3: computeProgression is a deterministic function of the entry map,
accepted quests, and clock day: two recomputations over the same map with its
keys enumerated in any order (the map invariant makes the keys distinct) give
identical snapshots in every field, because the engine sorts the keys before
folding. -/
theorem computeProgression_deterministic :
    ∀ (entryKeys1 entryKeys2 : List ℤ) (entriesMap : ℤ → Option DailyEntry)
      (acceptedQuests : AcceptedQuests) (nowDay : ℤ),
      entryKeys1.Perm entryKeys2 → entryKeys1.Nodup →
      computeProgression entryKeys1 entriesMap acceptedQuests nowDay
        = computeProgression entryKeys2 entriesMap acceptedQuests nowDay := by
  intro k1 k2 em a now hperm _hnodup
  have hsorted : k1.insertionSort (· ≤ ·) = k2.insertionSort (· ≤ ·) :=
    List.eq_of_perm_of_sorted
      ((List.perm_insertionSort _ k1).trans
        (hperm.trans (List.perm_insertionSort _ k2).symm))
      (List.sorted_insertionSort _ k1) (List.sorted_insertionSort _ k2)
  simp only [computeProgression, hsorted]

/-- Witness for C3: the same three-day entry map enumerated in two different
key orders yields the same snapshot. -/
theorem computeProgression_deterministic_witness :
    computeProgression [3, 1, 2]
        (fun d => some ⟨d, some 2000, some 8, some 5, some 7000, some 30, some 6⟩)
        ⟨true, false, true⟩ 3
      = computeProgression [2, 3, 1]
        (fun d => some ⟨d, some 2000, some 8, some 5, some 7000, some 30, some 6⟩)
        ⟨true, false, true⟩ 3 :=
  computeProgression_deterministic [3, 1, 2] [2, 3, 1]
    (fun d => some ⟨d, some 2000, some 8, some 5, some 7000, some 30, some 6⟩)
    ⟨true, false, true⟩ 3 (by decide) (by decide)

/-- Helper: a getLast? hit is a member of the list. -/
theorem getLast?_eq_some_mem {α : Type} {l : List α} {a : α}
    (h : l.getLast? = some a) : a ∈ l := by
  rcases List.mem_getLast?_eq_getLast (show a ∈ l.getLast? from h) with ⟨hne, rfl⟩
  exact List.getLast_mem hne

/-- Helper: in a date-sorted entry list the last element carries the maximal
date. -/
theorem sorted_dateLe_last_max :
    ∀ (l : List DailyEntry), l.Sorted dateLe → ∀ e, l.getLast? = some e →
      ∀ x ∈ l, x.date ≤ e.date := by
  intro l
  induction l with
  | nil => intro _ e he; simp at he
  | cons a t ih =>
      intro hs e he x hx
      cases t with
      | nil =>
          simp only [List.getLast?_singleton, Option.some.injEq] at he
          simp only [List.mem_singleton] at hx
          subst he hx
          exact le_refl _
      | cons b t' =>
          rw [List.getLast?_cons_cons] at he
          rcases List.mem_cons.mp hx with rfl | hx'
          · exact List.rel_of_sorted_cons hs e (getLast?_eq_some_mem he)
          · exact ih hs.of_cons e he x hx'

/-- Helper: the date of a window point is its dateKey. -/
theorem metricPointAt_date (sortedEntries : List DailyEntry) (k : MetricKey)
    (dateKey : ℤ) : (metricPointAt sortedEntries k dateKey).date = dateKey := by
  cases h : entryByDate sortedEntries dateKey <;> simp [metricPointAt, h]

/-- Helper: a window point is null when no entry of the sorted list matches
its date with a present metric value. -/
theorem metricPointAt_value_none (sortedEntries : List DailyEntry)
    (k : MetricKey) (dateKey : ℤ)
    (h : ∀ e ∈ sortedEntries, e.date = dateKey → metricValue k e = none) :
    (metricPointAt sortedEntries k dateKey).value = none := by
  cases hl : entryByDate sortedEntries dateKey with
  | none => simp [metricPointAt, hl]
  | some e =>
      have hmem := List.mem_filter.mp (getLast?_eq_some_mem hl)
      have hdate : e.date = dateKey := by simpa using hmem.2
      simp [metricPointAt, hl, h e hmem.1 hdate]

/-- C7: for a positive day count, getMetricWindow returns exactly days points
whose dates are the consecutive calendar days ending at the latest logged date
(or today when there are no entries, and a genuinely logged maximal date
otherwise), with a null value on every date that has no entry or no value for
the requested metric. -/
theorem getMetricWindow_spec :
    ∀ (entries : List DailyEntry) (k : MetricKey) (days : ℕ) (todayDay : ℤ),
      0 < days →
      (getMetricWindow entries k days todayDay).length = days
      ∧ (getMetricWindow entries k days todayDay).map MetricPoint.date
        = (List.range days).map
            (fun (i : ℕ) =>
              latestWindowDate entries todayDay - (days : ℤ) + 1 + (i : ℤ))
      ∧ (entries = [] → latestWindowDate entries todayDay = todayDay)
      ∧ (entries ≠ [] →
          ∃ e ∈ entries, e.date = latestWindowDate entries todayDay)
      ∧ (∀ e ∈ entries, e.date ≤ latestWindowDate entries todayDay)
      ∧ (∀ p ∈ getMetricWindow entries k days todayDay,
          (∀ e ∈ entries, e.date = p.date → metricValue k e = none) →
          p.value = none) := by
  intro entries k days today hdays
  have hperm : (sortedByDate entries).Perm entries :=
    List.perm_insertionSort dateLe entries
  have hsorted : (sortedByDate entries).Sorted dateLe :=
    List.sorted_insertionSort dateLe entries
  refine ⟨?_, ?_, ?_, ?_, ?_, ?_⟩
  · simp only [getMetricWindow, if_pos hdays, List.length_map, List.length_range]
  · simp only [getMetricWindow, if_pos hdays, List.map_map]
    refine List.map_congr_left ?_
    intro i _
    simp only [Function.comp_apply, metricPointAt_date]
    ring
  · intro he
    subst he
    rfl
  · intro hne
    have hsne : sortedByDate entries ≠ [] := by
      intro hnil
      rw [hnil] at hperm
      exact hne hperm.symm.eq_nil
    refine ⟨(sortedByDate entries).getLast hsne,
      hperm.mem_iff.mp (List.getLast_mem hsne), ?_⟩
    simp [latestWindowDate, List.getLast?_eq_getLast _ hsne]
  · intro e he
    have hsne : sortedByDate entries ≠ [] := by
      intro hnil
      rw [hnil] at hperm
      rw [hperm.symm.eq_nil] at he
      simp at he
    have hmax := sorted_dateLe_last_max (sortedByDate entries) hsorted
      ((sortedByDate entries).getLast hsne)
      (List.getLast?_eq_getLast _ hsne) e (hperm.mem_iff.mpr he)
    simpa [latestWindowDate, List.getLast?_eq_getLast _ hsne] using hmax
  · intro p hp hnone
    simp only [getMetricWindow, if_pos hdays, List.mem_map, List.mem_range] at hp
    rcases hp with ⟨i, -, rfl⟩
    refine metricPointAt_value_none _ _ _ ?_
    intro e hes hdate
    refine hnone e (hperm.mem_iff.mp hes) ?_
    rw [metricPointAt_date]
    exact hdate

/-- Witness for C7 with a two-entry log, a three-day window, and a date gap. -/
theorem getMetricWindow_spec_witness :
    (getMetricWindow [⟨4, some 1800, none, none, none, none, none⟩,
        ⟨6, none, none, none, none, none, none⟩] .calories 3 9).length = 3
    ∧ (getMetricWindow [⟨4, some 1800, none, none, none, none, none⟩,
        ⟨6, none, none, none, none, none, none⟩] .calories 3 9).map
          MetricPoint.date
      = (List.range 3).map
          (fun (i : ℕ) =>
            latestWindowDate [⟨4, some 1800, none, none, none, none, none⟩,
              ⟨6, none, none, none, none, none, none⟩] 9 - (3 : ℤ) + 1 + (i : ℤ)) :=
  ⟨(getMetricWindow_spec [⟨4, some 1800, none, none, none, none, none⟩,
      ⟨6, none, none, none, none, none, none⟩] .calories 3 9 (by decide)).1,
    (getMetricWindow_spec [⟨4, some 1800, none, none, none, none, none⟩,
      ⟨6, none, none, none, none, none, none⟩] .calories 3 9 (by decide)).2.1⟩

/-- Helper: every level threshold is positive (indeed at least 100). -/
theorem xpToNextLevel_pos (level : ℕ) : 0 < xpToNextLevel level := by
  have h14 : (1 : ℚ) ≤ (5 / 4 : ℚ) ^ (level - 1) := one_le_pow₀ (by norm_num)
  have h100 : (100 : ℤ) ≤ jsRound (100 * (5 / 4 : ℚ) ^ (level - 1)) := by
    rw [jsRound]
    refine Int.le_floor.mpr ?_
    push_cast
    nlinarith
  rw [xpToNextLevel]
  omega

/-- Helper: the levelFromXp loop stops as soon as the remaining XP is below
the threshold. -/
theorem levelFromXpGo_of_lt {level r : ℕ} (h : r < xpToNextLevel level) :
    levelFromXpGo level r = ⟨level, r, xpToNextLevel level⟩ := by
  rw [levelFromXpGo, if_neg (by omega)]

/-- Helper: one loop step of levelFromXp consumes exactly one threshold. -/
theorem levelFromXpGo_step (level r : ℕ) :
    levelFromXpGo level (xpToNextLevel level + r) = levelFromXpGo (level + 1) r := by
  rw [levelFromXpGo, if_pos (by omega)]
  congr 1
  omega

/-- Helper: the cumulative XP of level 1 is zero. -/
theorem cumulativeXp_one : cumulativeXp 1 = 0 := by
  simp [cumulativeXp]

/-- Helper: cumulative XP recurrence for levels at least 1. -/
theorem cumulativeXp_succ {L : ℕ} (h : 1 ≤ L) :
    cumulativeXp (L + 1) = cumulativeXp L + xpToNextLevel L := by
  unfold cumulativeXp
  rw [Finset.sum_Ico_succ_top h]

/-- Helper: cumulative XP is monotone in the level. -/
theorem cumulativeXp_mono {a b : ℕ} (h : a ≤ b) :
    cumulativeXp a ≤ cumulativeXp b :=
  Finset.sum_le_sum_of_subset (Finset.Ico_subset_Ico le_rfl h)

/-- Helper: starting the loop at level 1 with the cumulative XP of level L in
hand is the same as starting at level L. -/
theorem levelFromXpGo_shift :
    ∀ L : ℕ, 1 ≤ L → ∀ r : ℕ,
      levelFromXpGo 1 (cumulativeXp L + r) = levelFromXpGo L r := by
  intro L
  induction L with
  | zero => omega
  | succ n ih =>
      intro _ r
      rcases Nat.eq_zero_or_pos n with rfl | hn
      · rw [cumulativeXp_one]
        rw [Nat.zero_add]
      · have hsum : cumulativeXp (n + 1) + r
            = cumulativeXp n + (xpToNextLevel n + r) := by
          rw [cumulativeXp_succ hn]
          omega
        rw [hsum, ih hn, levelFromXpGo_step]

/-- Helper: loop invariant of levelFromXp. The result level is at least the
starting level, the cumulative XP plus the in-level remainder reconstructs the
input, and the remainder sits strictly below the next threshold. -/
theorem levelFromXpGo_charact :
    ∀ r level : ℕ, 1 ≤ level →
      level ≤ (levelFromXpGo level r).level
      ∧ cumulativeXp (levelFromXpGo level r).level
          + (levelFromXpGo level r).inLevelXp
        = cumulativeXp level + r
      ∧ (levelFromXpGo level r).inLevelXp
          < xpToNextLevel (levelFromXpGo level r).level := by
  intro r
  induction r using Nat.strong_induction_on with
  | _ r ih =>
      intro level hlev
      by_cases h : xpToNextLevel level ≤ r
      · have hpos := xpToNextLevel_pos level
        have hrec := ih (r - xpToNextLevel level) (by omega) (level + 1) (by omega)
        have hsucc := cumulativeXp_succ hlev
        rw [levelFromXpGo, if_pos h]
        refine ⟨by omega, by omega, hrec.2.2⟩
      · rw [levelFromXpGo, if_neg h]
        exact ⟨le_refl _, rfl, show r < xpToNextLevel level by omega⟩

/-- C6: the level reported by levelFromXp is non-decreasing in the XP input,
and feeding exactly the sum of xpToNextLevel over levels 1 through L - 1
returns level L with zero in-level XP. -/
theorem levelFromXp_monotone_and_thresholds :
    (∀ xp1 xp2 : ℕ, xp1 ≤ xp2 →
      (levelFromXp xp1).level ≤ (levelFromXp xp2).level)
    ∧ (∀ L : ℕ, 1 ≤ L →
        (levelFromXp (cumulativeXp L)).level = L
        ∧ (levelFromXp (cumulativeXp L)).inLevelXp = 0) := by
  constructor
  · intro xp1 xp2 hle
    by_contra hcon
    push_neg at hcon
    have h1 := levelFromXpGo_charact xp1 1 le_rfl
    have h2 := levelFromXpGo_charact xp2 1 le_rfl
    rw [cumulativeXp_one] at h1 h2
    have hmono : cumulativeXp ((levelFromXp xp2).level + 1)
        ≤ cumulativeXp (levelFromXp xp1).level := by
      refine cumulativeXp_mono ?_
      simpa [levelFromXp] using hcon
    have hup : xp2 < cumulativeXp ((levelFromXp xp2).level + 1) := by
      have := cumulativeXp_succ h2.1
      simp only [levelFromXp] at this ⊢
      omega
    have hlow : cumulativeXp (levelFromXp xp1).level ≤ xp1 := by
      simp only [levelFromXp]
      omega
    omega
  · intro L hL
    have hstop : levelFromXpGo L 0 = ⟨L, 0, xpToNextLevel L⟩ :=
      levelFromXpGo_of_lt (xpToNextLevel_pos L)
    have hshift := levelFromXpGo_shift L hL 0
    rw [Nat.add_zero] at hshift
    rw [levelFromXp, hshift, hstop]
    exact ⟨rfl, rfl⟩

/-- Witness for C6 at XP 120 and 500 and at the exact threshold of level 4. -/
theorem levelFromXp_monotone_and_thresholds_witness :
    (levelFromXp 120).level ≤ (levelFromXp 500).level
    ∧ (levelFromXp (cumulativeXp 4)).level = 4
    ∧ (levelFromXp (cumulativeXp 4)).inLevelXp = 0 :=
  ⟨levelFromXp_monotone_and_thresholds.1 120 500 (by norm_num),
    (levelFromXp_monotone_and_thresholds.2 4 (by norm_num)).1,
    (levelFromXp_monotone_and_thresholds.2 4 (by norm_num)).2⟩

/-- Helper: a filterMap over a list whose elements all map to none is empty. -/
theorem filterMap_eq_nil_of {α β : Type} (f : α → Option β) :
    ∀ l : List α, (∀ e ∈ l, f e = none) → l.filterMap f = [] := by
  intro l
  induction l with
  | nil => intro _; rfl
  | cons a t ih =>
      intro h
      rw [List.filterMap_cons, h a (by simp)]
      exact ih (fun e he => h e (by simp [he]))

/-- Helper: a filterMap over a list whose elements all map to the same value
is that value replicated. -/
theorem filterMap_eq_replicate_of {α β : Type} (f : α → Option β) (c : β) :
    ∀ l : List α, (∀ e ∈ l, f e = some c) →
      l.filterMap f = List.replicate l.length c := by
  intro l
  induction l with
  | nil => intro _; rfl
  | cons a t ih =>
      intro h
      rw [List.filterMap_cons, h a (by simp), List.length_cons,
        List.replicate_succ]
      exact congrArg (c :: ·) (ih (fun e he => h e (by simp [he])))

/-- Helper: the safe average of an empty list is zero. -/
theorem safeAverage_nil : safeAverage [] = 0 := rfl

/-- Helper: the safe average of replicated zeros is zero. -/
theorem safeAverage_replicate_zero (n : ℕ) :
    safeAverage (List.replicate n (0 : ℚ)) = 0 := by
  rcases Nat.eq_zero_or_pos n with rfl | hn
  · rfl
  · simp [safeAverage, List.sum_replicate, hn.ne']

/-- Helper: the standard deviation of replicated zeros is zero. -/
theorem computeStandardDeviation_replicate_zero (n : ℕ) :
    computeStandardDeviation (List.replicate n (0 : ℚ)) = 0 := by
  unfold computeStandardDeviation
  by_cases h : (List.replicate n (0 : ℚ)).length < 2
  · rw [if_pos h]
  · rw [if_neg h, List.map_replicate, safeAverage_replicate_zero]
    norm_num [safeAverage_replicate_zero]

/-- Helper: on a complete profile with positive baseline TDEE and a 14-entry
window logging calories exactly at baseline with no exercise minutes, effort,
or steps, computeDynamicTdee lands at round(baseline * (1 - 0.036)): the empty
activity signals clamp the activity delta at -0.06, the intake delta and the
variance damping are zero, and the 0.6 smoothing leaves -0.036. -/
theorem computeDynamicTdee_flat (profile : Profile) (entries : List DailyEntry)
    (B : ℤ) (hB : computeTdee profile = some B) (hBpos : 0 < B)
    (hlen : entries.length = DYNAMIC_TDEE_WINDOW_DAYS)
    (hflat : ∀ e ∈ entries, e.calories = some (B : ℚ)
      ∧ e.exerciseMinutes = none ∧ e.exerciseEffort = none ∧ e.steps = none) :
    (computeDynamicTdee profile entries).baselineTdee = some B
    ∧ (computeDynamicTdee profile entries).dynamicTdee
      = some (jsRound ((B : ℚ) * (241 / 250)))
    ∧ (computeDynamicTdee profile entries).delta
      = jsRound ((B : ℚ) * (241 / 250)) - B := by
  have hperm : (sortedByDate entries).Perm entries :=
    List.perm_insertionSort dateLe entries
  have hmem : ∀ e ∈ sortedByDate entries, e.calories = some (B : ℚ)
      ∧ e.exerciseMinutes = none ∧ e.exerciseEffort = none ∧ e.steps = none :=
    fun e he => hflat e (hperm.mem_iff.mp he)
  have hslen : (sortedByDate entries).length = DYNAMIC_TDEE_WINDOW_DAYS :=
    hperm.length_eq.trans hlen
  have hdrop : (sortedByDate entries).drop
      ((sortedByDate entries).length - DYNAMIC_TDEE_WINDOW_DAYS)
      = sortedByDate entries := by
    rw [hslen, Nat.sub_self, List.drop_zero]
  have hEx : (sortedByDate entries).filterMap (fun e => e.exerciseMinutes) = [] :=
    filterMap_eq_nil_of _ _ (fun e he => (hmem e he).2.1)
  have hEff : (sortedByDate entries).filterMap (fun e => e.exerciseEffort) = [] :=
    filterMap_eq_nil_of _ _ (fun e he => (hmem e he).2.2.1)
  have hSteps : (sortedByDate entries).filterMap (fun e => e.steps) = [] :=
    filterMap_eq_nil_of _ _ (fun e he => (hmem e he).2.2.2)
  have hCal : (sortedByDate entries).filterMap (fun e => e.calories)
      = List.replicate DYNAMIC_TDEE_WINDOW_DAYS (B : ℚ) := by
    rw [filterMap_eq_replicate_of _ _ _ (fun e he => (hmem e he).1), hslen]
  have hBne : ((B : ℤ) : ℚ) ≠ 0 := by
    exact_mod_cast hBpos.ne.symm
  have hRatios : (List.replicate DYNAMIC_TDEE_WINDOW_DAYS ((B : ℤ) : ℚ)).map
      (fun v => (v - (B : ℚ)) / (B : ℚ))
      = List.replicate DYNAMIC_TDEE_WINDOW_DAYS (0 : ℚ) := by
    rw [List.map_replicate]
    simp
  have hActivity : averageFinite
      [safeAverage [] / 45, safeAverage [] / 6, safeAverage [] / 8000] 1
      = (0 : ℚ) := by
    norm_num [averageFinite, safeAverage]
  simp only [computeDynamicTdee, hB, hdrop, hEx, hEff, hSteps, hCal, hRatios,
    hActivity, safeAverage_replicate_zero,
    computeStandardDeviation_replicate_zero]
  have hclampA : clamp ((0 - 1) * (0.08 : ℚ)) (-0.06) 0.1 = -0.06 := by
    norm_num [clamp]
  have hclampI : clamp ((0 : ℚ) * 0.35) (-0.08) 0.08 = 0 := by
    norm_num [clamp]
  rw [hclampA, hclampI]
  have hraw : (-0.06 + 0 : ℚ) = -(3 / 50) := by norm_num
  rw [hraw]
  have hsign : qSign (-(3 / 50)) = -1 := by norm_num [qSign]
  rw [hsign]
  have hvar : min (0.05 : ℝ) (0 * 0.25) = 0 := by norm_num
  rw [hvar]
  have hdamp : ((-1 : ℚ) : ℝ) * max 0 (|((-(3 / 50) : ℚ) : ℝ)| - 0)
      = -(3 / 50) := by
    push_cast
    rw [abs_of_neg (by norm_num : (-(3 / 50) : ℝ) < 0)]
    norm_num
  rw [hdamp]
  have hcap : clamp (-(3 / 50) : ℝ) (-(DYNAMIC_TDEE_MAX_DELTA : ℝ))
      (DYNAMIC_TDEE_MAX_DELTA : ℝ) = -(3 / 50) := by
    norm_num [clamp, DYNAMIC_TDEE_MAX_DELTA]
  rw [hcap]
  have hsmooth : (-(3 / 50) : ℝ) * ((DYNAMIC_TDEE_SMOOTHING_ALPHA : ℚ) : ℝ)
      = -(9 / 250) := by
    norm_num [DYNAMIC_TDEE_SMOOTHING_ALPHA]
  rw [hsmooth]
  have hfloor : ⌊(B : ℝ) * (1 + -(9 / 250)) + 1 / 2⌋
      = jsRound ((B : ℚ) * (241 / 250)) := by
    rw [jsRound, ← Rat.floor_cast (α := ℝ)]
    congr 1
    push_cast
    ring
  rw [hfloor]
  refine ⟨?_, ?_, ?_⟩ <;> first | rfl | trivial

/-- C2 (amended): for a complete profile with positive baseline TDEE and a
14-day window in which every day logs no exercise and calories exactly at the
baseline, computeDynamicTdee does not return the baseline: the empty activity
signal clamps the activity delta at -0.06 and the 0.6 smoothing leaves a
-0.036 delta ratio, so dynamicTdee = round(baselineTdee * (1 - 0.036)). -/
theorem computeDynamicTdee_flatWindow_amended :
    ∀ (profile : Profile) (entries : List DailyEntry) (B : ℤ),
      computeTdee profile = some B → 0 < B →
      entries.length = DYNAMIC_TDEE_WINDOW_DAYS →
      (∀ e ∈ entries, e.calories = some (B : ℚ) ∧ e.exerciseMinutes = none
        ∧ e.exerciseEffort = none ∧ e.steps = none) →
      (computeDynamicTdee profile entries).baselineTdee = some B
      ∧ (computeDynamicTdee profile entries).dynamicTdee
        = some (jsRound ((B : ℚ) * (241 / 250)))
      ∧ (computeDynamicTdee profile entries).delta
        = jsRound ((B : ℚ) * (241 / 250)) - B :=
  fun profile entries B hB hBpos hlen hflat =>
    computeDynamicTdee_flat profile entries B hB hBpos hlen hflat

/-- C2 counterexample to the literal claim: a complete profile (age 30, height
180, weight 80, male, moderate) has baseline TDEE 2759; a flat 14-day window
logging exactly 2759 calories per day with no exercise yields dynamicTdee
2660, not 2759, so the delta is not zero. -/
theorem computeDynamicTdee_flatWindow_counterexample :
    (computeDynamicTdee ⟨some 30, some 180, some 80, some "male", some "moderate"⟩
        ((List.range 14).map (fun (i : ℕ) =>
          (⟨(i : ℤ) + 1, some 2759, none, none, none, none, none⟩ : DailyEntry)))).baselineTdee
      = some 2759
    ∧ (computeDynamicTdee ⟨some 30, some 180, some 80, some "male", some "moderate"⟩
        ((List.range 14).map (fun (i : ℕ) =>
          (⟨(i : ℤ) + 1, some 2759, none, none, none, none, none⟩ : DailyEntry)))).dynamicTdee
      = some 2660
    ∧ (2660 : ℤ) ≠ 2759 := by
  have h := computeDynamicTdee_flat
    ⟨some 30, some 180, some 80, some "male", some "moderate"⟩
    ((List.range 14).map (fun (i : ℕ) =>
      (⟨(i : ℤ) + 1, some 2759, none, none, none, none, none⟩ : DailyEntry)))
    2759 (by
      norm_num [computeTdee, computeBmr, isProfileComplete, activityMultiplier,
        jsRound, show "male" ≠ "female" from by decide,
        show "moderate" ≠ "sedentary" from by decide,
        show "moderate" ≠ "light" from by decide]) (by decide) (by decide) (by decide)
  refine ⟨h.1, ?_, by decide⟩
  rw [h.2.1]
  norm_num [jsRound]

/-- Witness for the amended C2 at the same concrete profile and flat window. -/
theorem computeDynamicTdee_flatWindow_amended_witness :
    (computeDynamicTdee ⟨some 30, some 180, some 80, some "male", some "moderate"⟩
        ((List.range 14).map (fun (i : ℕ) =>
          (⟨(i : ℤ) + 1, some 2759, none, none, none, none, none⟩ : DailyEntry)))).baselineTdee
      = some 2759
    ∧ (computeDynamicTdee ⟨some 30, some 180, some 80, some "male", some "moderate"⟩
        ((List.range 14).map (fun (i : ℕ) =>
          (⟨(i : ℤ) + 1, some 2759, none, none, none, none, none⟩ : DailyEntry)))).dynamicTdee
      = some (jsRound (((2759 : ℤ) : ℚ) * (241 / 250)))
    ∧ (computeDynamicTdee ⟨some 30, some 180, some 80, some "male", some "moderate"⟩
        ((List.range 14).map (fun (i : ℕ) =>
          (⟨(i : ℤ) + 1, some 2759, none, none, none, none, none⟩ : DailyEntry)))).delta
      = jsRound (((2759 : ℤ) : ℚ) * (241 / 250)) - 2759 :=
  computeDynamicTdee_flatWindow_amended
    ⟨some 30, some 180, some 80, some "male", some "moderate"⟩
    ((List.range 14).map (fun (i : ℕ) =>
      (⟨(i : ℤ) + 1, some 2759, none, none, none, none, none⟩ : DailyEntry)))
    2759 (by
      norm_num [computeTdee, computeBmr, isProfileComplete, activityMultiplier,
        jsRound, show "male" ≠ "female" from by decide,
        show "moderate" ≠ "sedentary" from by decide,
        show "moderate" ≠ "light" from by decide]) (by decide) (by decide) (by decide)
